import Mathlib

/-!
Shallow embedding of the NengoDL simulation-execution & telemetry layer
(`nengo_dl/callbacks.py`, with external collaborators modelled by the
interface contracts stated in the specification), together with proofs of
the specification's claims about it.
-/

namespace NengoDL

/-- Characters accepted in a segment of a hierarchical log-event path. -/
def isSafeChar (c : Char) : Bool :=
  c.isAlphanum || c = '_' || c = '.' || c = '-' || c = '/'

/-- Modelled from the spec: `utils.sanitize_name` lives in `nengo_dl/utils.py`, which is
not part of the sources at hand; the spec requires the sanitized name to be
"filesystem/log-safe (no characters illegal in a hierarchical log-event path)".
Spaces and colons are mapped to underscores and remaining unsafe characters are
dropped. -/
def sanitize_name (s : String) : String :=
  String.mk ((s.data.map fun c => if c = ' ' || c = ':' then '_' else c).filter isSafeChar)

/-- Nengo model objects, by capability category (callbacks.py lines 55-66 dispatch on
`nengo.Ensemble`, `nengo.ensemble.Neurons`, `nengo.Connection`; everything else is
unsupported). -/
inductive NengoObj where
  | ensemble (label : String)
  | neurons (ensembleLabel : String)
  | connection (label : String)
  | other (descr : String)
deriving DecidableEq, Repr

/-- Human-readable description interpolated into the ValidationError message
("%s" formatting of the object in callbacks.py line 74). -/
def NengoObj.describe : NengoObj → String
  | .ensemble l => "<Ensemble " ++ l ++ ">"
  | .neurons l => "<Neurons of Ensemble " ++ l ++ ">"
  | .connection l => "<Connection " ++ l ++ ">"
  | .other d => d

/-- The error raised for an unsupported object (callbacks.py lines 72-76);
`attr` is the second positional argument, always "objects" there. -/
structure ValidationError where
  msg : String
  attr : String
deriving DecidableEq, Repr

/-- The exact message text of callbacks.py lines 73-74. -/
def unknownObjectMsg (o : NengoObj) : String :=
  "Unknown summary object " ++ o.describe ++
    "; should be an Ensemble, Neurons, or Connection"

/-- The isinstance dispatch of callbacks.py lines 58-66: a supported object's
unsanitized name prefix and logged parameter kind; `none` for unsupported objects. -/
def classifyObj : NengoObj → Option (String × String)
  | .ensemble l => some ("Ensemble_" ++ l, "encoders")
  | .neurons l => some ("Ensemble.neurons_" ++ l, "bias")
  | .connection l => some ("Connection_" ++ l, "weights")
  | .other _ => none

/-- One registered summary: `(sanitized name, owning object, parameter kind)`
(the tuple appended at callbacks.py lines 68-70). -/
structure SummaryEntry where
  sanitizedName : String
  obj : NengoObj
  param : String
deriving DecidableEq, Repr

/-- The registration loop of NengoSummaries.__init__ (callbacks.py lines 53-76):
each supported object contributes one entry, an unsupported object raises
ValidationError, which propagates to the caller so no entry list is ever returned. -/
def buildSummaries : List NengoObj → Except ValidationError (List SummaryEntry)
  | [] => Except.ok []
  | o :: rest =>
      match classifyObj o with
      | some np =>
          match buildSummaries rest with
          | Except.ok tl =>
              Except.ok ({ sanitizedName := sanitize_name (np.1 ++ "_" ++ np.2),
                           obj := o, param := np.2 } :: tl)
          | Except.error e => Except.error e
      | none => Except.error { msg := unknownObjectMsg o, attr := "objects" }

/-- TensorFlow execution modes: deferred graph building vs. forced-immediate (eager). -/
inductive ExecMode where
  | graph
  | eager
deriving DecidableEq, Repr

/-- Python `with context.eager_mode(): body` — enter eager mode, run the body, and
restore the previous mode on every exit path (a context manager's exit handler also
runs when the body raises, so the ambient mode can never leak). -/
def withEagerMode {α : Type} (m0 : ExecMode) (body : ExecMode → α × ExecMode) :
    α × ExecMode :=
  ((body ExecMode.eager).1, m0)

/-- Abstract parameter value (the array returned by `sim.data.get_params`). -/
abbrev ParamValue := List Int

/-- One histogram record in the event log: `(name, value, step)`
(the `tf.summary.histogram(name, val, step=epoch)` call, callbacks.py line 87). -/
structure HistogramRecord where
  name : String
  value : ParamValue
  step : Nat
deriving DecidableEq, Repr

/-- Modelled from the spec: the Telemetry Writer Handle (spec section 3) — an open
handle to an append-only, time-indexed structured log, owned by the telemetry
component; the on-disk format is delegated to tf.summary and out of scope. -/
structure Writer where
  logDir : String
  records : List HistogramRecord
  closed : Bool
  flushed : Bool
deriving DecidableEq, Repr

/-- Telemetry failures: writes or closes after the handle was closed, and
parameter-read failures surfaced from the parameter source. -/
inductive TelemetryError where
  | writerClosed
  | readFailure (msg : String)
deriving DecidableEq, Repr

/-- `tf.summary.create_file_writer(log_dir)` (callbacks.py line 51): open a fresh
writer on the log destination. -/
def createFileWriter (logDir : String) : Writer :=
  { logDir := logDir, records := [], closed := false, flushed := false }

/-- Modelled from the spec: appending histogram records to the log; any write after
the handle was closed fails with WriterClosedError (spec sections 3 and 4.4). -/
def writeHistograms (w : Writer) (recs : List HistogramRecord) :
    Except TelemetryError Writer :=
  if w.closed then Except.error TelemetryError.writerClosed
  else Except.ok { w with records := w.records ++ recs }

/-- Modelled from the spec: flush-and-close of the writer handle; the handle is closed
exactly once, a second close fails with WriterClosedError (spec section 4.4). -/
def closeWriter (w : Writer) : Except TelemetryError Writer :=
  if w.closed then Except.error TelemetryError.writerClosed
  else Except.ok { w with closed := true, flushed := true }

/-- The external parameter source (`sim.data`, spec section 6): a batched lookup
returning one value per request in request order, plus a counter of how many batched
lookups have been issued against it. -/
structure ParamSource where
  lookup : List (NengoObj × String) → Except String (List ParamValue)
  calls : Nat

/-- One batched `sim.data.get_params(*pairs)` round-trip (callbacks.py lines 81-83). -/
def getParams (src : ParamSource) (reqs : List (NengoObj × String)) :
    Except String (List ParamValue) × ParamSource :=
  (src.lookup reqs, { src with calls := src.calls + 1 })

/-- What NengoSummaries.__init__ leaves behind: the writer it opened, the registration
result, and the ambient execution mode after the constructor returns or raises. -/
structure InitOutcome where
  writer : Writer
  summaries : Except ValidationError (List SummaryEntry)
  mode : ExecMode
deriving Repr

/-- NengoSummaries.__init__ (callbacks.py lines 43-76): the writer is created first,
inside a scoped eager block (lines 50-51), and only then are the objects validated and
registered (lines 53-76); a ValidationError therefore fires after the writer-open side
effect has already happened. -/
def nengoSummariesInit (logDir : String) (objects : List NengoObj) (m0 : ExecMode) :
    InitOutcome :=
  let wm := withEagerMode m0 fun m => (createFileWriter logDir, m)
  { writer := wm.1, summaries := buildSummaries objects, mode := wm.2 }

/-- NengoSummaries.on_epoch_end (callbacks.py lines 78-87): one batched get_params
lookup outside any eager scope, then — inside a scoped eager block with the writer as
default — one histogram record per registered summary, tagged with the sanitized name
and the epoch as step. A lookup failure propagates before the eager block is entered. -/
def on_epoch_end (summaries : List SummaryEntry) (epoch : Nat) (src : ParamSource)
    (w : Writer) (m0 : ExecMode) :
    Except TelemetryError Unit × Writer × ParamSource × ExecMode :=
  let g := getParams src (summaries.map fun e => (e.obj, e.param))
  match g.1 with
  | Except.error msg => (Except.error (TelemetryError.readFailure msg), w, g.2, m0)
  | Except.ok vals =>
      let rm := withEagerMode m0 fun m =>
        ((match writeHistograms w ((summaries.zip vals).map fun p =>
              { name := p.1.sanitizedName, value := p.2, step := epoch }) with
          | Except.ok w2 => (Except.ok (), w2)
          | Except.error e => (Except.error e, w)), m)
      (rm.1.1, rm.1.2, g.2, rm.2)

/-- NengoSummaries.on_train_end (callbacks.py lines 89-93): close the writer inside a
scoped eager block. -/
def on_train_end (w : Writer) (m0 : ExecMode) :
    Except TelemetryError Unit × Writer × ExecMode :=
  let rm := withEagerMode m0 fun m =>
    ((match closeWriter w with
      | Except.ok w2 => (Except.ok (), w2)
      | Except.error e => (Except.error e, w)), m)
  (rm.1.1, rm.1.2, rm.2)

/-- The training-phase handlers inherited from the Keras TensorBoard base class
(external collaborator); each takes the event's arguments and produces its effect. -/
structure KerasCallbacks (α ρ : Type) where
  on_train_begin : α → ρ
  on_batch_end : α → ρ
  on_train_end : α → ρ

/-- TensorBoard.on_predict_batch_end (callbacks.py lines 101-103): forwards its
arguments verbatim to on_batch_end. -/
def TensorBoard.on_predict_batch_end {α ρ : Type} (cb : KerasCallbacks α ρ)
    (args : α) : ρ :=
  cb.on_batch_end args

/-- TensorBoard.on_predict_begin (callbacks.py lines 105-107): forwards its arguments
verbatim to on_train_begin. -/
def TensorBoard.on_predict_begin {α ρ : Type} (cb : KerasCallbacks α ρ) (args : α) : ρ :=
  cb.on_train_begin args

/-- TensorBoard.on_predict_end (callbacks.py lines 109-111): forwards its arguments
verbatim to on_train_end. -/
def TensorBoard.on_predict_end {α ρ : Type} (cb : KerasCallbacks α ρ) (args : α) : ρ :=
  cb.on_train_end args

/-- Modelled from the spec: the Tensor Graph Adapter (spec section 4.2) — the compiled
graph is a deterministic per-step transition (internal recurrent state in, one input
frame in; state out, one probe-output frame out); its implementation lives outside the
sources at hand (only its test, `test_tensorgraph_layer`, is present). -/
structure TensorGraphAdapter (σ ι ω : Type) where
  step : σ → ι → σ × ω

/-- One `run` call over a list of input frames: the per-step transition folded over the
frames, collecting one output frame per step (spec section 4.2). -/
def TensorGraphAdapter.runSteps {σ ι ω : Type} (g : TensorGraphAdapter σ ι ω) :
    σ → List ι → σ × List ω
  | s, [] => (s, [])
  | s, x :: xs =>
      let p := g.step s x
      let q := g.runSteps p.1 xs
      (q.1, p.2 :: q.2)

/-- Full-simulation mode (spec section 4.2): a sequence of `run` calls, the internal
state accumulated across calls, the outputs of all calls concatenated in order. -/
def TensorGraphAdapter.runChunks {σ ι ω : Type} (g : TensorGraphAdapter σ ι ω) :
    σ → List (List ι) → σ × List ω
  | s, [] => (s, [])
  | s, c :: cs =>
      let p := g.runSteps s c
      let q := g.runChunks p.1 cs
      (q.1, p.2 ++ q.2)

/-- The parameter kind the specification assigns to each capability category
(ensemble-like → encoders, neuron-population-like → bias, connection-like → weights;
`none` when the spec supports no kind for the object). Stated from the spec's words,
to be compared against the source-derived `classifyObj`/`buildSummaries`. -/
def specKind : NengoObj → Option String
  | .ensemble _ => some "encoders"
  | .neurons _ => some "bias"
  | .connection _ => some "weights"
  | .other _ => none

/-- A two-entry registration (one ensemble, one connection), as registered by
`buildSummaries [NengoObj.ensemble "E", NengoObj.connection "C"]`. -/
def demoSummaries : List SummaryEntry :=
  [{ sanitizedName := "Ensemble_E_encoders", obj := NengoObj.ensemble "E",
     param := "encoders" },
   { sanitizedName := "Connection_C_weights", obj := NengoObj.connection "C",
     param := "weights" }]

/-- A parameter source whose batched lookup always succeeds with two values. -/
def demoSrc : ParamSource :=
  { lookup := fun _ => Except.ok [[0], [1]], calls := 0 }

/-- A parameter source whose batched lookup always fails. -/
def demoFailSrc : ParamSource :=
  { lookup := fun _ => Except.error "read failed", calls := 0 }

theorem specKind_eq_none_iff (o : NengoObj) : specKind o = none ↔ classifyObj o = none := by
  cases o <;> simp [specKind, classifyObj]

theorem buildSummaries_error_of_unsupported (objs : List NengoObj)
    (h : ∃ o, o ∈ objs ∧ classifyObj o = none) :
    ∃ bad, bad ∈ objs ∧ classifyObj bad = none ∧
      buildSummaries objs =
        Except.error { msg := unknownObjectMsg bad, attr := "objects" } := by
  induction objs with
  | nil =>
      rcases h with ⟨o, ho, _⟩
      cases ho
  | cons o rest ih =>
      cases hc : classifyObj o with
      | none =>
          exact ⟨o, List.mem_cons_self o rest, hc, by simp [buildSummaries, hc]⟩
      | some np =>
          rcases h with ⟨o', ho', hn⟩
          rcases List.mem_cons.mp ho' with h1 | h2
          · subst h1
            rw [hc] at hn
            cases hn
          · rcases ih ⟨o', h2, hn⟩ with ⟨bad, hb, hbn, herr⟩
            exact ⟨bad, List.mem_cons_of_mem _ hb, hbn, by simp [buildSummaries, hc, herr]⟩

theorem buildSummaries_ok_spec (objs : List NengoObj) (entries : List SummaryEntry)
    (h : buildSummaries objs = Except.ok entries) :
    List.Forall₂ (fun o e => e.obj = o ∧ specKind o = some e.param) objs entries := by
  induction objs generalizing entries with
  | nil =>
      simp [buildSummaries] at h
      subst h
      exact List.Forall₂.nil
  | cons o rest ih =>
      cases hc : classifyObj o with
      | none => simp [buildSummaries, hc] at h
      | some np =>
          cases hr : buildSummaries rest with
          | error e => simp [buildSummaries, hc, hr] at h
          | ok tl =>
              simp [buildSummaries, hc, hr] at h
              subst h
              refine List.Forall₂.cons ⟨rfl, ?_⟩ (ih tl hr)
              cases o <;> simp [classifyObj] at hc <;> simp [specKind, ← hc]

theorem runSteps_append {σ ι ω : Type} (g : TensorGraphAdapter σ ι ω) (xs ys : List ι)
    (s : σ) :
    g.runSteps s (xs ++ ys) =
      ((g.runSteps (g.runSteps s xs).1 ys).1,
        (g.runSteps s xs).2 ++ (g.runSteps (g.runSteps s xs).1 ys).2) := by
  induction xs generalizing s with
  | nil => simp [TensorGraphAdapter.runSteps]
  | cons x xs ih => simp [TensorGraphAdapter.runSteps, ih]

/-- Claim C1: NengoSummaries construction classifies every supplied object by
capability — Ensemble → encoders, Neurons → bias, Connection → weights — and any
object of any other type fails construction with a ValidationError whose message
identifies an offending object. -/
theorem classification_by_capability (objs : List NengoObj) :
    (∀ entries, buildSummaries objs = Except.ok entries →
      List.Forall₂ (fun o e => e.obj = o ∧ specKind o = some e.param) objs entries) ∧
    (∀ o, o ∈ objs → specKind o = none →
      ∃ bad, bad ∈ objs ∧ specKind bad = none ∧
        buildSummaries objs =
          Except.error { msg := unknownObjectMsg bad, attr := "objects" }) := by
  constructor
  · exact fun entries h => buildSummaries_ok_spec objs entries h
  · intro o ho hn
    rcases buildSummaries_error_of_unsupported objs
        ⟨o, ho, (specKind_eq_none_iff o).mp hn⟩ with ⟨bad, hb, hbn, herr⟩
    exact ⟨bad, hb, (specKind_eq_none_iff bad).mpr hbn, herr⟩

theorem classification_by_capability_witness :
    ∃ bad, bad ∈ [NengoObj.ensemble "E", NengoObj.other "<Node>"] ∧
      specKind bad = none ∧
      buildSummaries [NengoObj.ensemble "E", NengoObj.other "<Node>"] =
        Except.error { msg := unknownObjectMsg bad, attr := "objects" } :=
  (classification_by_capability [NengoObj.ensemble "E", NengoObj.other "<Node>"]).2
    (NengoObj.other "<Node>") (by decide) (by decide)

/-- Claim C2: construction is all-or-nothing — whenever the objects list contains an
object of unsupported capability, the constructor raises, so the caller never receives
a list of registered summary entries. -/
theorem construction_all_or_nothing (logDir : String) (m0 : ExecMode)
    (objs : List NengoObj) (h : ∃ o, o ∈ objs ∧ specKind o = none) :
    (∃ e, (nengoSummariesInit logDir objs m0).summaries = Except.error e) ∧
    ∀ entries, (nengoSummariesInit logDir objs m0).summaries ≠ Except.ok entries := by
  rcases h with ⟨o, ho, hn⟩
  rcases buildSummaries_error_of_unsupported objs
      ⟨o, ho, (specKind_eq_none_iff o).mp hn⟩ with ⟨bad, _, _, herr⟩
  refine ⟨⟨_, herr⟩, fun entries hok => ?_⟩
  rw [show (nengoSummariesInit logDir objs m0).summaries = buildSummaries objs from rfl,
    herr] at hok
  cases hok

theorem construction_all_or_nothing_witness :
    (∃ e, (nengoSummariesInit "logs" [NengoObj.ensemble "E", NengoObj.other "<Node>"]
        ExecMode.graph).summaries = Except.error e) ∧
    ∀ entries, (nengoSummariesInit "logs"
        [NengoObj.ensemble "E", NengoObj.other "<Node>"]
        ExecMode.graph).summaries ≠ Except.ok entries :=
  construction_all_or_nothing "logs" ExecMode.graph
    [NengoObj.ensemble "E", NengoObj.other "<Node>"]
    ⟨NengoObj.other "<Node>", by decide, by decide⟩

/-- Claim C7: the TensorBoard callback adapter is pure delegation — each
inference-phase handler invokes the corresponding training-phase handler with its
arguments forwarded verbatim, performing nothing of its own. -/
theorem tensorBoard_pure_delegation {α ρ : Type} (cb : KerasCallbacks α ρ) (args : α) :
    TensorBoard.on_predict_begin cb args = cb.on_train_begin args ∧
    TensorBoard.on_predict_batch_end cb args = cb.on_batch_end args ∧
    TensorBoard.on_predict_end cb args = cb.on_train_end args :=
  ⟨rfl, rfl, rfl⟩

/-- Claim C8: running the Tensor Graph Adapter in full-simulation mode (a sequence of
run calls carrying internal state, covering the step range chunk by chunk) and running
it as one single-shot layer-style call over the same steps, with the same fixed
step function (parameter state), produce the same final state and the same output
sequence for every probe frame. -/
theorem tensorGraph_full_sim_eq_layer {σ ι ω : Type} (g : TensorGraphAdapter σ ι ω)
    (s : σ) (chunks : List (List ι)) :
    g.runChunks s chunks = g.runSteps s chunks.flatten := by
  induction chunks generalizing s with
  | nil => simp [TensorGraphAdapter.runChunks, TensorGraphAdapter.runSteps]
  | cons c cs ih =>
      simp [TensorGraphAdapter.runChunks, List.flatten, runSteps_append, ih]

/-- Claim C3: on_epoch_end performs exactly one batched get_params lookup covering all
registered (object, parameter-kind) pairs and appends exactly one histogram record per
registered entry, each tagged with the entry's sanitized name and the epoch index as
the step axis. -/
theorem epoch_end_one_lookup_one_record (summaries : List SummaryEntry) (epoch : Nat)
    (src : ParamSource) (w : Writer) (m0 : ExecMode) (vals : List ParamValue)
    (hlk : src.lookup (summaries.map fun e => (e.obj, e.param)) = Except.ok vals)
    (hlen : vals.length = summaries.length) (hopen : w.closed = false) :
    (on_epoch_end summaries epoch src w m0).1 = Except.ok () ∧
    (on_epoch_end summaries epoch src w m0).2.2.1.calls = src.calls + 1 ∧
    (on_epoch_end summaries epoch src w m0).2.1.records =
      w.records ++ (summaries.zip vals).map (fun p =>
        { name := p.1.sanitizedName, value := p.2, step := epoch }) ∧
    (on_epoch_end summaries epoch src w m0).2.1.records.length =
      w.records.length + summaries.length ∧
    ∀ r ∈ (on_epoch_end summaries epoch src w m0).2.1.records.drop w.records.length,
      r.step = epoch ∧ ∃ e, e ∈ summaries ∧ r.name = e.sanitizedName := by
  have hrun : on_epoch_end summaries epoch src w m0 =
      (Except.ok (),
       { w with records := w.records ++ (summaries.zip vals).map (fun p =>
            { name := p.1.sanitizedName, value := p.2, step := epoch }) },
       { src with calls := src.calls + 1 }, m0) := by
    simp [on_epoch_end, getParams, hlk, withEagerMode, writeHistograms, hopen]
  refine ⟨by rw [hrun], by rw [hrun], by rw [hrun], ?_, ?_⟩
  · rw [hrun]
    simp [List.length_zip, hlen]
  · rw [hrun]
    intro r hr
    rw [show ({ w with records := w.records ++ (summaries.zip vals).map (fun p =>
          ({ name := p.1.sanitizedName, value := p.2, step := epoch } :
            HistogramRecord)) } : Writer).records =
        w.records ++ (summaries.zip vals).map (fun p =>
          { name := p.1.sanitizedName, value := p.2, step := epoch }) from rfl,
      List.drop_left] at hr
    rcases List.mem_map.mp hr with ⟨p, hp, hpr⟩
    subst hpr
    exact ⟨rfl, p.1, (List.of_mem_zip hp).1, rfl⟩

theorem epoch_end_one_lookup_one_record_witness :
    (on_epoch_end demoSummaries 0 demoSrc (createFileWriter "logs")
        ExecMode.graph).1 = Except.ok () ∧
    (on_epoch_end demoSummaries 0 demoSrc (createFileWriter "logs")
        ExecMode.graph).2.1.records.length = 2 ∧
    (on_epoch_end demoSummaries 0 demoSrc (createFileWriter "logs")
        ExecMode.graph).2.2.1.calls = 1 := by
  have h := epoch_end_one_lookup_one_record demoSummaries 0 demoSrc
    (createFileWriter "logs") ExecMode.graph [[0], [1]] rfl rfl rfl
  exact ⟨h.1, by rw [h.2.2.2.1]; rfl, h.2.1⟩

/-- Claim C4: on_train_end flushes and closes the writer handle exactly once; after the
handle is closed, a second on_train_end fails with WriterClosedError, and so does any
epoch write that reaches the writer. -/
theorem train_end_close_once (w : Writer) (m0 m1 m2 : ExecMode)
    (hopen : w.closed = false) (summaries : List SummaryEntry) (epoch : Nat)
    (src : ParamSource) (vals : List ParamValue)
    (hlk : src.lookup (summaries.map fun e => (e.obj, e.param)) = Except.ok vals) :
    (on_train_end w m0).1 = Except.ok () ∧
    (on_train_end w m0).2.1.closed = true ∧
    (on_train_end w m0).2.1.flushed = true ∧
    (on_train_end (on_train_end w m0).2.1 m1).1 =
      Except.error TelemetryError.writerClosed ∧
    (on_epoch_end summaries epoch src (on_train_end w m0).2.1 m2).1 =
      Except.error TelemetryError.writerClosed := by
  have h1 : on_train_end w m0 =
      (Except.ok (), { w with closed := true, flushed := true }, m0) := by
    simp [on_train_end, withEagerMode, closeWriter, hopen]
  refine ⟨by rw [h1], by rw [h1], by rw [h1], ?_, ?_⟩
  · rw [h1]
    simp [on_train_end, withEagerMode, closeWriter]
  · rw [h1]
    simp [on_epoch_end, getParams, hlk, withEagerMode, writeHistograms]

theorem train_end_close_once_witness :
    (on_train_end (on_train_end (createFileWriter "logs") ExecMode.graph).2.1
        ExecMode.graph).1 = Except.error TelemetryError.writerClosed ∧
    (on_epoch_end demoSummaries 0 demoSrc
        (on_train_end (createFileWriter "logs") ExecMode.graph).2.1
        ExecMode.graph).1 = Except.error TelemetryError.writerClosed := by
  have h := train_end_close_once (createFileWriter "logs") ExecMode.graph
    ExecMode.graph ExecMode.graph rfl demoSummaries 0 demoSrc [[0], [1]] rfl
  exact ⟨h.2.2.2.1, h.2.2.2.2⟩

/-- Claim C5: if the batched parameter read fails, on_epoch_end writes zero histogram
records for that epoch (the writer is left unchanged) and the read error propagates to
the caller instead of being skipped. -/
theorem read_failure_aborts_epoch (summaries : List SummaryEntry) (epoch : Nat)
    (src : ParamSource) (w : Writer) (m0 : ExecMode) (msg : String)
    (hlk : src.lookup (summaries.map fun e => (e.obj, e.param)) = Except.error msg) :
    (on_epoch_end summaries epoch src w m0).1 =
      Except.error (TelemetryError.readFailure msg) ∧
    (on_epoch_end summaries epoch src w m0).2.1 = w := by
  constructor <;> simp [on_epoch_end, getParams, hlk]

theorem read_failure_aborts_epoch_witness :
    (on_epoch_end demoSummaries 0 demoFailSrc (createFileWriter "logs")
        ExecMode.graph).1 = Except.error (TelemetryError.readFailure "read failed") ∧
    (on_epoch_end demoSummaries 0 demoFailSrc (createFileWriter "logs")
        ExecMode.graph).2.1 = createFileWriter "logs" :=
  read_failure_aborts_epoch demoSummaries 0 demoFailSrc (createFileWriter "logs")
    ExecMode.graph "read failed" rfl

/-- Claim C6: every eager-mode entry performed by a telemetry operation is scoped: after
writer creation in the constructor, after an epoch write (on the success path and on
every failure path), and after writer close, the ambient execution mode equals the mode
in effect before the call, so interleaved telemetry leaves the graph-mode state of the
adapter untouched. -/
theorem eager_mode_scoped (logDir : String) (objects : List NengoObj)
    (summaries : List SummaryEntry) (epoch : Nat) (src : ParamSource) (w w2 : Writer)
    (m0 : ExecMode) :
    (nengoSummariesInit logDir objects m0).mode = m0 ∧
    (on_epoch_end summaries epoch src w m0).2.2.2 = m0 ∧
    (on_train_end w2 m0).2.2 = m0 := by
  refine ⟨rfl, ?_, rfl⟩
  cases hlk : src.lookup (summaries.map fun e => (e.obj, e.param)) with
  | error msg => simp [on_epoch_end, getParams, hlk]
  | ok vals => simp [on_epoch_end, getParams, hlk, withEagerMode]

/-- Claim C9 is false as stated: two ensembles sharing the label "a" are both
registered successfully, and their sanitized names coincide, so sanitized names are
not unique within the instance. -/
theorem sanitized_name_not_unique :
    ∃ entries,
      buildSummaries [NengoObj.ensemble "a", NengoObj.ensemble "a"] =
        Except.ok entries ∧
      ¬ (entries.map SummaryEntry.sanitizedName).Nodup := by
  refine ⟨_, rfl, ?_⟩
  decide

/-- Claim C9 amended: in every successfully constructed Telemetry instance, the
sanitized name of each registered entry is log-safe — every character belongs to the
safe path alphabet; uniqueness within the instance is not guaranteed (two objects of
the same category with equal labels yield identical sanitized names). -/
theorem sanitized_name_log_safe (objs : List NengoObj) (entries : List SummaryEntry)
    (h : buildSummaries objs = Except.ok entries) :
    ∀ e ∈ entries, ∀ c ∈ e.sanitizedName.data, isSafeChar c = true := by
  induction objs generalizing entries with
  | nil =>
      simp [buildSummaries] at h
      subst h
      intro e he
      cases he
  | cons o rest ih =>
      cases hc : classifyObj o with
      | none => simp [buildSummaries, hc] at h
      | some np =>
          cases hr : buildSummaries rest with
          | error er => simp [buildSummaries, hc, hr] at h
          | ok tl =>
              simp [buildSummaries, hc, hr] at h
              subst h
              intro e he
              rcases List.mem_cons.mp he with h1 | h2
              · subst h1
                intro c hcmem
                simp only [sanitize_name] at hcmem
                exact (List.mem_filter.mp hcmem).2
              · exact ih tl hr e h2

theorem sanitized_name_log_safe_witness : isSafeChar 'E' = true :=
  sanitized_name_log_safe [NengoObj.ensemble "E"]
    [⟨"Ensemble_E_encoders", NengoObj.ensemble "E", "encoders"⟩] rfl
    ⟨"Ensemble_E_encoders", NengoObj.ensemble "E", "encoders"⟩ (by decide) 'E' (by decide)

/-- Claim C10: the writer-open side effect precedes validation: even when construction
fails with a ValidationError, the outcome already holds the writer opened on the log
destination. -/
theorem writer_opened_before_validation (logDir : String) (m0 : ExecMode)
    (objs : List NengoObj) (e : ValidationError)
    (h : buildSummaries objs = Except.error e) :
    (nengoSummariesInit logDir objs m0).writer = createFileWriter logDir ∧
    (nengoSummariesInit logDir objs m0).summaries = Except.error e :=
  ⟨rfl, h⟩

theorem writer_opened_before_validation_witness :
    (nengoSummariesInit "logs" [NengoObj.other "<Node>"] ExecMode.graph).writer =
        createFileWriter "logs" ∧
    (nengoSummariesInit "logs" [NengoObj.other "<Node>"] ExecMode.graph).summaries =
      Except.error ⟨unknownObjectMsg (NengoObj.other "<Node>"), "objects"⟩ :=
  writer_opened_before_validation "logs" ExecMode.graph [NengoObj.other "<Node>"] _ rfl

end NengoDL
